import Mathlib

/-!
Shallow embedding of `src/server.py` (an aiohttp CRUD service over two
entities, User and Advertisement, with pydantic-v1 request validation and an
SQLAlchemy store).

Modelling conventions:
* Request-body JSON values are modelled by the scalar fragment `JVal`
  (strings, integers, null); arrays and objects nested as field values are
  outside the fragment (pydantic would reject them for the `str`/`int`
  fields used here, just as it rejects `null`).
* A request body is `ReqBody`: `malformed` models a body that
  `request.json()` cannot parse (the handlers do not catch the parse error,
  so the framework answers with a generic 500); `nonObject` models a
  parseable body that is not a JSON object (the `**data` splat raises an
  uncaught TypeError, again a framework 500); `object` carries the parsed
  object's key/value pairs in order (a duplicate key keeps the last value,
  as in Python's JSON parser).
* pydantic v1 semantics: a `str` field accepts a JSON string as-is and
  coerces an integer via `str(...)`; an `int` field accepts an integer and
  coerces a decimal string via `int(...)`; `null` is rejected for required
  fields and means "not given" for `Optional[...]` fields; missing
  `Optional` fields default to `None`; unknown extra fields are ignored;
  `ValidationError.errors()` carries one entry per failing field, in field
  declaration order.
* `bcrypt.hashpw(password, gensalt())` is modelled by an arbitrary function
  parameter `hashpw : String → String → String` applied to the submitted
  password and a fresh-salt parameter.
* The store is a pure `Store` value.  Row ids are assigned from a counter
  (the database sequence).  A user INSERT raises IntegrityError exactly when
  the new username or email collides with a stored user (the `unique=True`
  columns); an advertisement INSERT raises IntegrityError exactly when the
  owner id references no stored user (the `ForeignKey(User.id)` column) —
  both are caught by the handlers' `except IntegrityError` branches.
  Store-level commit failures the handlers do not catch surface as the
  framework's generic 500 with the transaction rolled back, i.e. the store
  unchanged: the user PATCH commit raises IntegrityError when the updated
  row's username or email equals another stored user's (`unique=True`
  columns, no `except` in `UserView.patch`); the advertisement PATCH commit
  fails whenever a truthy `owner` or `registration_time` was applied,
  because the patch schema validated them as *strings* and asyncpg refuses
  a `str` bound to an Integer/DateTime column — so a patch can only ever
  commit `header` and `description`, and `owner`/`registration_time` keep
  their creation-assigned values; the user DELETE commit raises
  IntegrityError when an advertisement still references the user
  (`ForeignKey(User.id)`, default NO ACTION, no `except` in
  `UserView.delete`).
* `DateTime` values (`func.now()` server defaults) are abstract clock ticks
  (`Nat`); `isoformat` renders a tick.
-/

/-- Scalar JSON values appearing as request-body field values. -/
inductive JVal where
  | str (s : String)
  | num (n : Int)
  | null
deriving DecidableEq, Repr

/-- A parsed JSON object body: key/value pairs in textual order. -/
abbrev Payload := List (String × JVal)

/-- The body of an incoming POST/PATCH request, as seen by `request.json()`. -/
inductive ReqBody where
  | malformed
  | nonObject (v : JVal)
  | object (p : Payload)
deriving DecidableEq, Repr

/-- Field lookup in a JSON object: the last occurrence of a duplicated key
wins, as in Python's `json.loads`. -/
def getField : Payload → String → Option JVal
  | [], _ => none
  | (k, v) :: rest, key =>
    match getField rest key with
    | some w => some w
    | none => if k = key then some v else none

/-- One entry of pydantic's `ValidationError.errors()`: the failing field's
location and message. -/
inductive FieldError where
  | missing (loc : String)
  | wrongType (loc : String) (msg : String)
deriving DecidableEq, Repr

/-- pydantic v1 validation of a required-or-present `str` field: strings are
kept, integers are coerced via `str`, `null` is rejected. -/
def validateStr : JVal → Except String String
  | .str s => .ok s
  | .num n => .ok (toString n)
  | .null => .error "none is not an allowed value"

/-- pydantic v1 validation of an `int` field: integers are kept, decimal
strings are coerced via `int`, `null` is rejected. -/
def validateInt : JVal → Except String Int
  | .num n => .ok n
  | .str s =>
    match s.toInt? with
    | some n => .ok n
    | none => .error "value is not a valid integer"
  | .null => .error "none is not an allowed value"

/-- Validation of a required `str` field of a create schema. -/
def requiredStr (p : Payload) (name : String) : Except FieldError String :=
  match getField p name with
  | none => .error (.missing name)
  | some v =>
    match validateStr v with
    | .ok s => .ok s
    | .error m => .error (.wrongType name m)

/-- Validation of a required `int` field of a create schema. -/
def requiredInt (p : Payload) (name : String) : Except FieldError Int :=
  match getField p name with
  | none => .error (.missing name)
  | some v =>
    match validateInt v with
    | .ok n => .ok n
    | .error m => .error (.wrongType name m)

/-- Validation of an `Optional[str]` field of a patch schema: a missing or
null field validates to `None`. -/
def optionalStr (p : Payload) (name : String) : Except FieldError (Option String) :=
  match getField p name with
  | none => .ok none
  | some .null => .ok none
  | some v =>
    match validateStr v with
    | .ok s => .ok (some s)
    | .error m => .error (.wrongType name m)

/-- Errors contributed by one field to `ValidationError.errors()`. -/
def errsOf : Except FieldError α → List FieldError
  | .ok _ => []
  | .error e => [e]

/-- Validated data of `CreateUserSchema`. -/
structure CreateUserData where
  username : String
  email : String
  password : String
deriving DecidableEq, Repr

/-- `CreateUserSchema`: username, email, password — all required strings.
Collects one error per failing field, in declaration order. -/
def CreateUserSchema (p : Payload) : Except (List FieldError) CreateUserData :=
  match requiredStr p "username", requiredStr p "email", requiredStr p "password" with
  | .ok u, .ok e, .ok pw => .ok ⟨u, e, pw⟩
  | r1, r2, r3 => .error (errsOf r1 ++ errsOf r2 ++ errsOf r3)

/-- Validated data of `PatchUserSchema` (`.dict()`: every declared field,
missing ones as `None`). -/
structure PatchUserData where
  username : Option String
  email : Option String
  password : Option String
deriving DecidableEq, Repr

/-- `PatchUserSchema`: username, email, password — all `Optional[str]`. -/
def PatchUserSchema (p : Payload) : Except (List FieldError) PatchUserData :=
  match optionalStr p "username", optionalStr p "email", optionalStr p "password" with
  | .ok u, .ok e, .ok pw => .ok ⟨u, e, pw⟩
  | r1, r2, r3 => .error (errsOf r1 ++ errsOf r2 ++ errsOf r3)

/-- Validated data of `CreateAdvertisementSchema`. -/
structure CreateAdvData where
  header : String
  description : String
  owner : Int
deriving DecidableEq, Repr

/-- `CreateAdvertisementSchema`: header and description required strings,
owner a required integer. -/
def CreateAdvertisementSchema (p : Payload) : Except (List FieldError) CreateAdvData :=
  match requiredStr p "header", requiredStr p "description", requiredInt p "owner" with
  | .ok h, .ok d, .ok o => .ok ⟨h, d, o⟩
  | r1, r2, r3 => .error (errsOf r1 ++ errsOf r2 ++ errsOf r3)

/-- Validated data of `PatchAdvertisementSchema` — note that `owner` and
`registration_time` are typed `Optional[str]` in the source schema. -/
structure PatchAdvData where
  header : Option String
  description : Option String
  owner : Option String
  registration_time : Option String
deriving DecidableEq, Repr

/-- `PatchAdvertisementSchema`: header, description, owner,
registration_time — all `Optional[str]`. -/
def PatchAdvertisementSchema (p : Payload) : Except (List FieldError) PatchAdvData :=
  match optionalStr p "header", optionalStr p "description",
        optionalStr p "owner", optionalStr p "registration_time" with
  | .ok h, .ok d, .ok o, .ok t => .ok ⟨h, d, o, t⟩
  | r1, r2, r3, r4 => .error (errsOf r1 ++ errsOf r2 ++ errsOf r3 ++ errsOf r4)

/-- Python truthiness of a validated `Optional[str]` value: `None` and the
empty string are falsy, every other string is truthy.  The patch loops apply
a field exactly when its value is truthy (`if value: setattr(...)`). -/
def truthy : Option String → Bool
  | none => false
  | some s => s != ""

/-- A stored row of the `users` table. -/
structure UserRec where
  id : Nat
  username : String
  email : String
  password : String
deriving DecidableEq, Repr

/-- A stored row of the `advertisements` table.  `registration_time` is the
server-assigned creation tick and `owner` the integer validated at
creation: a patch supplying either field never commits (see
`AdvView.patch`), so no other value ever reaches the store. -/
structure AdvRec where
  id : Nat
  header : String
  description : String
  registration_time : Nat
  owner : Int
deriving DecidableEq, Repr

/-- The relational store: both tables plus the id sequences. -/
structure Store where
  users : List UserRec
  advs : List AdvRec
  nextUserId : Nat
  nextAdvId : Nat
deriving DecidableEq, Repr

/-- Store well-formedness: every stored id is below its sequence counter
(true of every store produced by sequence-assigned inserts). -/
def Store.WF (s : Store) : Prop :=
  (∀ u ∈ s.users, u.id < s.nextUserId) ∧ (∀ a ∈ s.advs, a.id < s.nextAdvId)

instance (s : Store) : Decidable s.WF := by
  unfold Store.WF; infer_instance

/-- `session.get(User, id)`: primary-key lookup. -/
def getUser (s : Store) (i : Nat) : Option UserRec :=
  s.users.find? (fun u => u.id == i)

/-- `session.get(Advertisement, id)`: primary-key lookup. -/
def getAdv (s : Store) (i : Nat) : Option AdvRec :=
  s.advs.find? (fun a => a.id == i)

/-- The response bodies the server can produce, one constructor per JSON
shape built in `server.py` (`serverError` is the framework's generic 500
page for an exception no handler caught). -/
inductive Body where
  | idBody (i : Nat)
  | statusSuccess
  | errorMsg (msg : String)
  | errorList (errs : List FieldError)
  | userBody (username email : String)
  | advBody (header registration_time description : String) (owner : Int)
  | serverError
deriving DecidableEq, Repr

/-- Top-level keys of each response-body shape. -/
def Body.keys : Body → List String
  | .idBody _ => ["id"]
  | .statusSuccess => ["status"]
  | .errorMsg _ => ["error"]
  | .errorList _ => ["error"]
  | .userBody _ _ => ["username", "email"]
  | .advBody _ _ _ _ => ["header", "registration_time", "description", "owner"]
  | .serverError => []

/-- An HTTP response: status code and JSON body. -/
structure Resp where
  status : Nat
  body : Body
deriving DecidableEq, Repr

/-- The framework's answer to an exception no handler caught. -/
def serverError500 : Resp := ⟨500, .serverError⟩

/-- Rendering of `datetime.isoformat()` on an abstract clock tick. -/
def isoformat (t : Nat) : String := "1970-01-01T00:00:" ++ toString t

/-- Does the new user collide with a stored one on a `unique=True` column?
(the condition under which the INSERT raises IntegrityError). -/
def userConflict (s : Store) (username email : String) : Bool :=
  s.users.any (fun u => u.username == username || u.email == email)

/-- Does the updated user row collide with another stored user on a
`unique=True` column?  This is the condition under which the UPDATE flushed
by the patch commit raises IntegrityError — which `UserView.patch` does not
catch.  (On stores reachable through the program, where stored usernames and
emails are unique, this holds exactly when the patch wrote a colliding new
value into one of the two columns.) -/
def userUpdateConflict (s : Store) (uid : Nat) (u2 : UserRec) : Bool :=
  s.users.any (fun x => x.id != uid && (x.username == u2.username || x.email == u2.email))

/-- Does some advertisement reference this user?  This is the condition
under which the DELETE commit raises the foreign-key IntegrityError — which
`UserView.delete` does not catch. -/
def userReferenced (s : Store) (uid : Nat) : Bool :=
  s.advs.any (fun a => a.owner == (uid : Int))

/-- `UserView.get`: 404 if the id is absent, else the public projection
(username and email — the password is never echoed). -/
def UserView.get (uid : Nat) (s : Store) : Resp × Store :=
  match getUser s uid with
  | none => (⟨404, .errorMsg "User does not exist"⟩, s)
  | some u => (⟨200, .userBody u.username u.email⟩, s)

/-- `UserView.post`: parse, validate against `CreateUserSchema` (400 with
the field-error list on failure), replace the password by
`bcrypt.hashpw(password, gensalt())`, insert (400 "user already exists" on
IntegrityError), answer `{"id": new_user.id}`. -/
def UserView.post (hashpw : String → String → String) (salt : String)
    (body : ReqBody) (s : Store) : Resp × Store :=
  match body with
  | .malformed => (serverError500, s)
  | .nonObject _ => (serverError500, s)
  | .object p =>
    match CreateUserSchema p with
    | .error errs => (⟨400, .errorList errs⟩, s)
    | .ok d =>
      if userConflict s d.username d.email then
        (⟨400, .errorMsg "user already exists"⟩, s)
      else
        (⟨200, .idBody s.nextUserId⟩,
         { s with
            users := s.users ++ [⟨s.nextUserId, d.username, d.email, hashpw d.password salt⟩],
            nextUserId := s.nextUserId + 1 })

/-- The patch loop of `UserView.patch`: `for column, value in
json_data_validated.items(): if value: setattr(user, column, value)` —
fields in declaration order, applied only when truthy. -/
def applyUserPatch (u : UserRec) (d : PatchUserData) : UserRec :=
  let u1 := if truthy d.username then { u with username := d.username.getD "" } else u
  let u2 := if truthy d.email then { u1 with email := d.email.getD "" } else u1
  if truthy d.password then { u2 with password := d.password.getD "" } else u2

/-- `UserView.patch`: parse, validate against `PatchUserSchema` (400 on
failure), load the user (404 if absent), apply the truthy fields, commit,
answer `{"status": "success"}`. -/
def UserView.patch (uid : Nat) (body : ReqBody) (s : Store) : Resp × Store :=
  match body with
  | .malformed => (serverError500, s)
  | .nonObject _ => (serverError500, s)
  | .object p =>
    match PatchUserSchema p with
    | .error errs => (⟨400, .errorList errs⟩, s)
    | .ok d =>
      match getUser s uid with
      | none => (⟨404, .errorMsg "User does not exist"⟩, s)
      | some u =>
        if userUpdateConflict s uid (applyUserPatch u d) then
          (serverError500, s)
        else
          (⟨200, .statusSuccess⟩,
           { s with users := s.users.map (fun x => if x.id == uid then applyUserPatch u d else x) })

/-- `UserView.delete`: load the user (404 if absent), delete its row and
answer `{"status": "success"}` — unless an advertisement still references
the user, in which case the commit's foreign-key IntegrityError is not
caught: framework 500, row kept. -/
def UserView.delete (uid : Nat) (s : Store) : Resp × Store :=
  match getUser s uid with
  | none => (⟨404, .errorMsg "User does not exist"⟩, s)
  | some _ =>
    if userReferenced s uid then
      (serverError500, s)
    else
      (⟨200, .statusSuccess⟩, { s with users := s.users.filter (fun x => x.id != uid) })

/-- `AdvView.get`: 404 if the id is absent, else header,
`registration_time.isoformat()`, description and owner. -/
def AdvView.get (aid : Nat) (s : Store) : Resp × Store :=
  match getAdv s aid with
  | none => (⟨404, .errorMsg "Advertisement does not exist"⟩, s)
  | some a =>
    (⟨200, .advBody a.header (isoformat a.registration_time) a.description a.owner⟩, s)

/-- `AdvView.post`: parse, validate against `CreateAdvertisementSchema`
(400 with the field-error list on failure), insert — the DB fills
`registration_time` from the `func.now()` server default (`now` is the
clock at commit) and raises IntegrityError when `owner` references no user,
which the handler maps to 400 "Advertisement already exists". -/
def AdvView.post (now : Nat) (body : ReqBody) (s : Store) : Resp × Store :=
  match body with
  | .malformed => (serverError500, s)
  | .nonObject _ => (serverError500, s)
  | .object p =>
    match CreateAdvertisementSchema p with
    | .error errs => (⟨400, .errorList errs⟩, s)
    | .ok d =>
      if s.users.any (fun u => (u.id : Int) == d.owner) then
        (⟨200, .idBody s.nextAdvId⟩,
         { s with
            advs := s.advs ++ [⟨s.nextAdvId, d.header, d.description, now, d.owner⟩],
            nextAdvId := s.nextAdvId + 1 })
      else
        (⟨400, .errorMsg "Advertisement already exists"⟩, s)

/-- The committed effect of the patch loop of `AdvView.patch` on the stored
row.  The loop itself setattrs every truthy field in declaration order
(header, description, owner, registration_time), but a truthy owner or
registration_time is a validated *string* whose UPDATE never commits (the
whole request dies with a driver error, see `AdvView.patch`), so only
header and description can reach the store. -/
def applyAdvPatch (a : AdvRec) (d : PatchAdvData) : AdvRec :=
  let a1 := if truthy d.header then { a with header := d.header.getD "" } else a
  if truthy d.description then { a1 with description := d.description.getD "" } else a1

/-- `AdvView.patch`: parse, validate against `PatchAdvertisementSchema`
(400 on failure), load the advertisement (404 if absent), setattr the
truthy fields, commit.  A truthy `owner` or `registration_time` is a string
(the patch schema types both `Optional[str]`), and asyncpg refuses a `str`
bound to an Integer/DateTime column: the commit raises, nothing is caught,
the transaction rolls back — framework 500, store unchanged.  Otherwise the
commit succeeds and the handler answers `{"status": "success"}`. -/
def AdvView.patch (aid : Nat) (body : ReqBody) (s : Store) : Resp × Store :=
  match body with
  | .malformed => (serverError500, s)
  | .nonObject _ => (serverError500, s)
  | .object p =>
    match PatchAdvertisementSchema p with
    | .error errs => (⟨400, .errorList errs⟩, s)
    | .ok d =>
      match getAdv s aid with
      | none => (⟨404, .errorMsg "Advertisement does not exist"⟩, s)
      | some a =>
        if truthy d.owner || truthy d.registration_time then
          (serverError500, s)
        else
          (⟨200, .statusSuccess⟩,
           { s with advs := s.advs.map (fun x => if x.id == aid then applyAdvPatch a d else x) })

/-- `AdvView.delete`: load the advertisement (404 if absent), delete its
row, answer `{"status": "success"}`. -/
def AdvView.delete (aid : Nat) (s : Store) : Resp × Store :=
  match getAdv s aid with
  | none => (⟨404, .errorMsg "Advertisement does not exist"⟩, s)
  | some _ =>
    (⟨200, .statusSuccess⟩, { s with advs := s.advs.filter (fun x => x.id != aid) })

/-- Spec-side description of one patched string field: an absent, null or
empty-string payload value leaves the stored value unchanged; a non-empty
value replaces it. -/
def pickStr (old : String) (v : Option String) : String :=
  match v with
  | none => old
  | some w => if w = "" then old else w

/-- Does a required `str` field fail create-schema validation (missing from
the payload, or present with a value the field validator rejects)? -/
def requiredStrFails (p : Payload) (name : String) : Bool :=
  match requiredStr p name with
  | .error _ => true
  | .ok _ => false

/-- Does a required `int` field fail create-schema validation? -/
def requiredIntFails (p : Payload) (name : String) : Bool :=
  match requiredInt p name with
  | .error _ => true
  | .ok _ => false

/-- Concrete stand-in for `bcrypt.hashpw` in witness scenarios. -/
def demoHash (pw salt : String) : String := "$2b$12$" ++ salt ++ pw

/-- The empty store right after schema creation (sequences at 1). -/
def store0 : Store := ⟨[], [], 1, 1⟩

/-- The create payload of the client script (`client.py`). -/
def userPayload : Payload :=
  [("username", .str "user3"), ("email", .str "user3@mail.com"), ("password", .str "12345")]

/-- The row `POST /user` with `userPayload` inserts into `store0`. -/
def demoUser : UserRec := ⟨1, "user3", "user3@mail.com", demoHash "12345" "salt"⟩

/-- The store after that first user insert. -/
def store1 : Store := ⟨[demoUser], [], 2, 1⟩

/-- An advertisement create payload owned by user 1. -/
def advPayload : Payload :=
  [("header", .str "Opel Astra J"), ("description", .str "car"), ("owner", .num 1)]

/-- The row `POST /advertisement` with `advPayload` inserts at clock 5. -/
def demoAdv : AdvRec := ⟨1, "Opel Astra J", "car", 5, 1⟩

/-- A store holding `demoUser` and `demoAdv`. -/
def storeA : Store := ⟨[demoUser], [demoAdv], 2, 2⟩

/-- A second stored user, distinct from `demoUser` on both unique columns. -/
def demoUser2 : UserRec := ⟨2, "user4", "user4@mail.com", demoHash "54321" "salt"⟩

/-- A store holding two users and no advertisements. -/
def store2 : Store := ⟨[demoUser, demoUser2], [], 3, 1⟩

/-- A PATCH body setting only `registration_time`. -/
def regPatch : Payload := [("registration_time", JVal.str "2022-01-01T00:00:00")]

/-! Helper lemmas. -/

/-- A `find?` over a list whose members all fail the predicate, extended by
one passing element, returns that element. -/
theorem find?_append_last {α} (p : α → Bool) (l : List α) (a : α)
    (hl : ∀ x ∈ l, p x = false) (ha : p a = true) :
    (l ++ [a]).find? p = some a := by
  rw [List.find?_append]
  have hnone : l.find? p = none := List.find?_eq_none.2 (by
    intro x hx
    simp [hl x hx])
  simp [hnone, List.find?, ha]

/-- Replacing every element that passes `p` by a fixed `y` (with `p y`)
makes `find? p` return `y`, provided some element passed `p`. -/
theorem find?_replace {α} (p : α → Bool) (y : α) (hy : p y = true) :
    ∀ l : List α, (l.find? p).isSome → (l.map fun x => if p x then y else x).find? p = some y := by
  intro l
  induction l with
  | nil => intro h; simp [List.find?] at h
  | cons x xs ih =>
    intro h
    by_cases hx : p x = true
    · simp [List.find?, hx, hy]
    · have hx' : p x = false := by simpa using hx
      have hx2 : ¬ p x = true := by simp [hx']
      rw [List.find?_cons_of_neg _ hx2] at h
      have hmap : (x :: xs).map (fun z => if p z then y else z)
          = x :: xs.map (fun z => if p z then y else z) := by simp [hx']
      rw [hmap, List.find?_cons_of_neg _ hx2]
      exact ih h

/-- An element failing `p` survives the replacement map. -/
theorem mem_replace_of_neg {α} (p : α → Bool) (y : α) (l : List α) (x : α)
    (hx : x ∈ l) (hpx : p x = false) :
    x ∈ l.map fun z => if p z then y else z := by
  have h := List.mem_map_of_mem (fun z => if p z then y else z) hx
  simpa [hpx] using h

/-- An element of the replacement map failing `p` was in the original list
(the replacement `y` itself passes `p`). -/
theorem mem_of_mem_replace {α} (p : α → Bool) (y : α) (l : List α) (x : α)
    (hx : x ∈ l.map fun z => if p z then y else z) (hpx : p x = false) (hy : p y = true) :
    x ∈ l := by
  rcases List.mem_map.1 hx with ⟨z, hz, hzx⟩
  by_cases hpz : p z = true
  · rw [if_pos hpz] at hzx
    subst hzx
    rw [hy] at hpx
    cases hpx
  · have hpz' : p z = false := by simpa using hpz
    rw [if_neg (by simp [hpz'])] at hzx
    subst hzx
    exact hz

/-- Filtering out every element that passes `p` leaves nothing for
`find? p`. -/
theorem find?_filter_not {α} (p : α → Bool) (l : List α) :
    (l.filter fun x => !(p x)).find? p = none :=
  List.find?_eq_none.2 (by
    intro x hx
    have := (List.mem_filter.1 hx).2
    simp at this
    simp [this])

/-- Object-field lookup distributes over concatenation: a key found in the
right part (last occurrence) shadows the left part. -/
theorem getField_append (xs ys : Payload) (key : String) :
    getField (xs ++ ys) key =
      match getField ys key with
      | some w => some w
      | none => getField xs key := by
  induction xs with
  | nil =>
    cases h : getField ys key <;> simp [getField, h]
  | cons kv xs ih =>
    cases kv with
    | mk k v =>
      rw [List.cons_append]
      show (match getField (xs ++ ys) key with
            | some w => some w
            | none => if k = key then some v else none) =
           (match getField ys key with
            | some w => some w
            | none => getField ((k, v) :: xs) key)
      rw [ih]
      cases h : getField ys key
      · rfl
      · rfl

/-- A key absent from every pair of an object yields no field. -/
theorem getField_none_of_keys (junk : Payload) (key : String)
    (h : ∀ kv ∈ junk, kv.1 ≠ key) : getField junk key = none := by
  induction junk with
  | nil => rfl
  | cons kv rest ih =>
    have hk : kv.1 ≠ key := h kv (List.mem_cons_self kv rest)
    have hrest : getField rest key = none := ih (fun x hx => h x (List.mem_cons_of_mem kv hx))
    simp [getField, hrest, hk]

/-- Appending fields under other keys does not change a key's lookup. -/
theorem getField_append_junk (p junk : Payload) (key : String)
    (h : ∀ kv ∈ junk, kv.1 ≠ key) :
    getField (p ++ junk) key = getField p key := by
  rw [getField_append, getField_none_of_keys junk key h]

/-- The sequential patch loop over a user equals the spec-side field-wise
description: truthy fields replace, falsy fields keep. -/
theorem applyUserPatch_eq (u : UserRec) (d : PatchUserData) :
    applyUserPatch u d =
      ⟨u.id, pickStr u.username d.username, pickStr u.email d.email,
       pickStr u.password d.password⟩ := by
  rcases d with ⟨un, em, pw⟩
  rcases un with _ | u1 <;> rcases em with _ | e1 <;> rcases pw with _ | p1 <;>
    simp [applyUserPatch, truthy, pickStr] <;> split_ifs <;> simp_all

/-- The committed patch effect on an advertisement equals the spec-side
field-wise description: truthy header/description replace, everything else
— id, registration_time, owner — is untouched. -/
theorem applyAdvPatch_eq (a : AdvRec) (d : PatchAdvData) :
    applyAdvPatch a d =
      ⟨a.id, pickStr a.header d.header, pickStr a.description d.description,
       a.registration_time, a.owner⟩ := by
  rcases d with ⟨h, ds, ow, rt⟩
  rcases h with _ | h1 <;> rcases ds with _ | d1 <;>
    simp [applyAdvPatch, truthy, pickStr] <;> split_ifs <;> simp_all

/-- A payload carrying the three user fields as JSON strings validates to
exactly those strings. -/
theorem createUserSchema_ok (p : Payload) (un em pw : String)
    (h1 : getField p "username" = some (.str un))
    (h2 : getField p "email" = some (.str em))
    (h3 : getField p "password" = some (.str pw)) :
    CreateUserSchema p = .ok ⟨un, em, pw⟩ := by
  simp [CreateUserSchema, requiredStr, h1, h2, h3, validateStr]

/-- A payload carrying header and description as JSON strings and owner as a
JSON integer validates to exactly those values. -/
theorem createAdvSchema_ok (p : Payload) (hd ds : String) (ow : Int)
    (h1 : getField p "header" = some (.str hd))
    (h2 : getField p "description" = some (.str ds))
    (h3 : getField p "owner" = some (.num ow)) :
    CreateAdvertisementSchema p = .ok ⟨hd, ds, ow⟩ := by
  simp [CreateAdvertisementSchema, requiredStr, requiredInt, h1, h2, h3,
        validateStr, validateInt]

/-- C2: for every id absent from the store (never created or already
deleted), GET, PATCH with a valid body, and DELETE all answer 404 with body
`{"error": "<Entity> does not exist"}`, the message naming the entity kind
(User or Advertisement). -/
theorem c2_absent_id_404 :
    ∀ (s : Store) (i : Nat) (pu pa : Payload) (du : PatchUserData) (da : PatchAdvData),
      PatchUserSchema pu = .ok du →
      PatchAdvertisementSchema pa = .ok da →
      ((getUser s i = none →
          UserView.get i s = (⟨404, .errorMsg "User does not exist"⟩, s) ∧
          UserView.patch i (.object pu) s = (⟨404, .errorMsg "User does not exist"⟩, s) ∧
          UserView.delete i s = (⟨404, .errorMsg "User does not exist"⟩, s)) ∧
       (getAdv s i = none →
          AdvView.get i s = (⟨404, .errorMsg "Advertisement does not exist"⟩, s) ∧
          AdvView.patch i (.object pa) s = (⟨404, .errorMsg "Advertisement does not exist"⟩, s) ∧
          AdvView.delete i s = (⟨404, .errorMsg "Advertisement does not exist"⟩, s))) := by
  intro s i pu pa du da hu ha
  constructor
  · intro hnone
    refine ⟨?_, ?_, ?_⟩ <;> simp [UserView.get, UserView.patch, UserView.delete, hnone, hu]
  · intro hnone
    refine ⟨?_, ?_, ?_⟩ <;> simp [AdvView.get, AdvView.patch, AdvView.delete, hnone, ha]

/-- Concrete instance of C2: id 7 exists in neither table of `store1`, and
all six operations answer the entity-naming 404. -/
theorem c2_witness :
    UserView.get 7 store1 = (⟨404, .errorMsg "User does not exist"⟩, store1) ∧
    UserView.patch 7 (.object []) store1 = (⟨404, .errorMsg "User does not exist"⟩, store1) ∧
    UserView.delete 7 store1 = (⟨404, .errorMsg "User does not exist"⟩, store1) ∧
    AdvView.get 7 store1 = (⟨404, .errorMsg "Advertisement does not exist"⟩, store1) ∧
    AdvView.patch 7 (.object []) store1 = (⟨404, .errorMsg "Advertisement does not exist"⟩, store1) ∧
    AdvView.delete 7 store1 = (⟨404, .errorMsg "Advertisement does not exist"⟩, store1) := by
  have h := c2_absent_id_404 store1 7 [] [] ⟨none, none, none⟩ ⟨none, none, none, none⟩ rfl rfl
  have hu := h.1 rfl
  have ha := h.2 rfl
  exact ⟨hu.1, hu.2.1, hu.2.2, ha.1, ha.2.1, ha.2.2⟩

/-- A user create payload with a failing required field makes the whole
schema fail with a non-empty error list. -/
theorem createUserSchema_fail (p : Payload)
    (h : (requiredStrFails p "username" || requiredStrFails p "email" ||
          requiredStrFails p "password") = true) :
    ∃ errs, errs ≠ [] ∧ CreateUserSchema p = .error errs := by
  rcases h1 : requiredStr p "username" with e1 | v1 <;>
  rcases h2 : requiredStr p "email" with e2 | v2 <;>
  rcases h3 : requiredStr p "password" with e3 | v3 <;>
    simp_all [requiredStrFails, CreateUserSchema, errsOf]

/-- An advertisement create payload with a failing required field makes the
whole schema fail with a non-empty error list. -/
theorem createAdvSchema_fail (p : Payload)
    (h : (requiredStrFails p "header" || requiredStrFails p "description" ||
          requiredIntFails p "owner") = true) :
    ∃ errs, errs ≠ [] ∧ CreateAdvertisementSchema p = .error errs := by
  rcases h1 : requiredStr p "header" with e1 | v1 <;>
  rcases h2 : requiredStr p "description" with e2 | v2 <;>
  rcases h3 : requiredInt p "owner" with e3 | v3 <;>
    simp_all [requiredStrFails, requiredIntFails, CreateAdvertisementSchema, errsOf]

/-- C3: a create payload on which a required field is missing or mistyped
(its validator fails) makes POST answer 400 with `{"error": <errs>}` for a
non-empty field-error list, and leaves the store unchanged (no entity is
inserted). -/
theorem c3_invalid_create_payload_400 :
    (∀ (hashpw : String → String → String) (salt : String) (p : Payload) (s : Store),
       (requiredStrFails p "username" || requiredStrFails p "email" ||
        requiredStrFails p "password") = true →
       ∃ errs, errs ≠ [] ∧
         UserView.post hashpw salt (.object p) s = (⟨400, .errorList errs⟩, s)) ∧
    (∀ (now : Nat) (p : Payload) (s : Store),
       (requiredStrFails p "header" || requiredStrFails p "description" ||
        requiredIntFails p "owner") = true →
       ∃ errs, errs ≠ [] ∧
         AdvView.post now (.object p) s = (⟨400, .errorList errs⟩, s)) := by
  constructor
  · intro hashpw salt p s h
    obtain ⟨errs, hne, hsch⟩ := createUserSchema_fail p h
    exact ⟨errs, hne, by simp [UserView.post, hsch]⟩
  · intro now p s h
    obtain ⟨errs, hne, hsch⟩ := createAdvSchema_fail p h
    exact ⟨errs, hne, by simp [AdvView.post, hsch]⟩

/-- Concrete instance of C3: a user payload missing username and password,
and an advertisement payload whose owner is JSON null, both get a 400 with a
non-empty error list and no insertion. -/
theorem c3_witness :
    (∃ errs, errs ≠ [] ∧
       UserView.post demoHash "salt" (.object [("email", JVal.str "a@b.c")]) store0 =
         (⟨400, .errorList errs⟩, store0)) ∧
    (∃ errs, errs ≠ [] ∧
       AdvView.post 5 (.object [("header", JVal.str "h"), ("description", JVal.str "d"),
                                ("owner", JVal.null)]) store0 =
         (⟨400, .errorList errs⟩, store0)) :=
  ⟨c3_invalid_create_payload_400.1 demoHash "salt" [("email", JVal.str "a@b.c")] store0 (by decide),
   c3_invalid_create_payload_400.2 5
     [("header", JVal.str "h"), ("description", JVal.str "d"), ("owner", JVal.null)]
     store0 (by decide)⟩

/-- C7 counterexample: a POST whose body is not parseable as JSON is
answered with status 500, not the claimed 400. -/
theorem c7_counterexample :
    (UserView.post demoHash "salt" .malformed store0).1.status = 500 ∧
    (UserView.post demoHash "salt" .malformed store0).1.status ≠ 400 :=
  ⟨rfl, by decide⟩

/-- C7 as amended: a POST or PATCH whose body is not parseable as JSON is
not caught by the handlers — the parse error propagates and the framework
answers with its generic 500 (no field-level detail), leaving the store
unchanged; field-level 400 detail arises only from schema validation of a
parseable object body. -/
theorem c7_malformed_body_500 :
    (∀ (hashpw : String → String → String) (salt : String) (s : Store),
       UserView.post hashpw salt .malformed s = (serverError500, s)) ∧
    (∀ (i : Nat) (s : Store), UserView.patch i .malformed s = (serverError500, s)) ∧
    (∀ (now : Nat) (s : Store), AdvView.post now .malformed s = (serverError500, s)) ∧
    (∀ (i : Nat) (s : Store), AdvView.patch i .malformed s = (serverError500, s)) ∧
    serverError500.status = 500 ∧ serverError500.body = .serverError :=
  ⟨fun _ _ _ => rfl, fun _ _ => rfl, fun _ _ => rfl, fun _ _ => rfl, rfl, rfl⟩

/-- C5 counterexample: user 2 of `store2` exists and the patch body
`{"username": "user3"}` is valid, but the username collides with user 1's
unique column: the commit's IntegrityError is not caught, so the program
answers 500 — not the claimed 200 — and updates nothing. -/
theorem c5_counterexample :
    getUser store2 2 = some demoUser2 ∧
    PatchUserSchema [("username", JVal.str "user3")] =
      .ok ⟨some "user3", none, none⟩ ∧
    UserView.patch 2 (.object [("username", JVal.str "user3")]) store2 =
      (serverError500, store2) ∧
    serverError500.status = 500 ∧ (500 : Nat) ≠ 200 :=
  ⟨rfl, rfl, rfl, rfl, by decide⟩

/-- C5 as amended: a PATCH of an existing entity with a valid body applies
exactly the truthy (present, non-null, non-empty) fields, leaves the id,
every falsy field, every other row and the other table untouched, and
answers 200 `{"status": "success"}` — provided the commit can succeed: for
users the updated username and email must collide with no other user (else
the uncaught IntegrityError yields a framework 500 and no change), and for
advertisements the payload's owner and registration_time must be falsy (a
truthy value is a validated string the driver refuses at commit: uncaught
error, framework 500, no change). -/
theorem c5_patch_applies_truthy_fields :
    (∀ (uid : Nat) (s : Store) (u : UserRec) (p : Payload) (d : PatchUserData),
       getUser s uid = some u →
       PatchUserSchema p = .ok d →
       userUpdateConflict s uid (applyUserPatch u d) = false →
       (UserView.patch uid (.object p) s).1 = ⟨200, .statusSuccess⟩ ∧
       getUser (UserView.patch uid (.object p) s).2 uid =
         some ⟨u.id, pickStr u.username d.username, pickStr u.email d.email,
               pickStr u.password d.password⟩ ∧
       (∀ x ∈ s.users, x.id ≠ uid → x ∈ (UserView.patch uid (.object p) s).2.users) ∧
       (∀ x ∈ (UserView.patch uid (.object p) s).2.users, x.id ≠ uid → x ∈ s.users) ∧
       (UserView.patch uid (.object p) s).2.advs = s.advs) ∧
    (∀ (uid : Nat) (s : Store) (u : UserRec) (p : Payload) (d : PatchUserData),
       getUser s uid = some u →
       PatchUserSchema p = .ok d →
       userUpdateConflict s uid (applyUserPatch u d) = true →
       UserView.patch uid (.object p) s = (serverError500, s)) ∧
    (∀ (aid : Nat) (s : Store) (a : AdvRec) (p : Payload) (d : PatchAdvData),
       getAdv s aid = some a →
       PatchAdvertisementSchema p = .ok d →
       truthy d.owner = false →
       truthy d.registration_time = false →
       (AdvView.patch aid (.object p) s).1 = ⟨200, .statusSuccess⟩ ∧
       getAdv (AdvView.patch aid (.object p) s).2 aid =
         some ⟨a.id, pickStr a.header d.header, pickStr a.description d.description,
               a.registration_time, a.owner⟩ ∧
       (∀ x ∈ s.advs, x.id ≠ aid → x ∈ (AdvView.patch aid (.object p) s).2.advs) ∧
       (∀ x ∈ (AdvView.patch aid (.object p) s).2.advs, x.id ≠ aid → x ∈ s.advs) ∧
       (AdvView.patch aid (.object p) s).2.users = s.users) ∧
    (∀ (aid : Nat) (s : Store) (a : AdvRec) (p : Payload) (d : PatchAdvData),
       getAdv s aid = some a →
       PatchAdvertisementSchema p = .ok d →
       (truthy d.owner || truthy d.registration_time) = true →
       AdvView.patch aid (.object p) s = (serverError500, s)) := by
  refine ⟨?_, ?_, ?_, ?_⟩
  · intro uid s u p d hu hd hnc
    have hrun : UserView.patch uid (.object p) s =
        (⟨200, .statusSuccess⟩,
         { s with users := s.users.map fun x => if x.id == uid then applyUserPatch u d else x }) := by
      simp [UserView.patch, hd, hu, hnc]
    have huid : (u.id == uid) = true := by simpa using List.find?_some hu
    have hPy : ((applyUserPatch u d).id == uid) = true := by
      rw [applyUserPatch_eq]; exact huid
    rw [hrun]
    refine ⟨rfl, ?_, ?_, ?_, rfl⟩
    · have hu2 : s.users.find? (fun x => x.id == uid) = some u := hu
      have hsome : (s.users.find? fun x => x.id == uid).isSome := by rw [hu2]; rfl
      have := find?_replace (fun x : UserRec => x.id == uid) (applyUserPatch u d) hPy s.users hsome
      show (s.users.map fun x => if x.id == uid then applyUserPatch u d else x).find?
          (fun x => x.id == uid) = _
      rw [this, applyUserPatch_eq]
    · intro x hx hne
      exact mem_replace_of_neg _ _ _ x hx (by simpa using hne)
    · intro x hx hne
      exact mem_of_mem_replace _ _ _ x hx (by simpa using hne) hPy
  · intro uid s u p d hu hd hc
    simp [UserView.patch, hd, hu, hc]
  · intro aid s a p d ha hd ho ht
    have hrun : AdvView.patch aid (.object p) s =
        (⟨200, .statusSuccess⟩,
         { s with advs := s.advs.map fun x => if x.id == aid then applyAdvPatch a d else x }) := by
      simp [AdvView.patch, hd, ha, ho, ht]
    have haid : (a.id == aid) = true := by simpa using List.find?_some ha
    have hPy : ((applyAdvPatch a d).id == aid) = true := by
      rw [applyAdvPatch_eq]; exact haid
    rw [hrun]
    refine ⟨rfl, ?_, ?_, ?_, rfl⟩
    · have ha2 : s.advs.find? (fun x => x.id == aid) = some a := ha
      have hsome : (s.advs.find? fun x => x.id == aid).isSome := by rw [ha2]; rfl
      have := find?_replace (fun x : AdvRec => x.id == aid) (applyAdvPatch a d) hPy s.advs hsome
      show (s.advs.map fun x => if x.id == aid then applyAdvPatch a d else x).find?
          (fun x => x.id == aid) = _
      rw [this, applyAdvPatch_eq]
    · intro x hx hne
      exact mem_replace_of_neg _ _ _ x hx (by simpa using hne)
    · intro x hx hne
      exact mem_of_mem_replace _ _ _ x hx (by simpa using hne) hPy
  · intro aid s a p d ha hd hc
    simp [AdvView.patch, hd, ha, hc]

/-- Concrete instances of the amended C5: a conflict-free username patch on
user 1 of `store1` succeeds and updates only the username; a colliding
username patch on user 2 of `store2` answers 500 unchanged; a header-only
patch on advertisement 1 of `storeA` succeeds and updates only the header;
a registration_time patch on the same advertisement answers 500
unchanged. -/
theorem c5_witness :
    ((UserView.patch 1 (.object [("username", JVal.str "user101")]) store1).1 =
        ⟨200, .statusSuccess⟩ ∧
     getUser (UserView.patch 1 (.object [("username", JVal.str "user101")]) store1).2 1 =
        some ⟨demoUser.id, pickStr demoUser.username (some "user101"),
              pickStr demoUser.email none, pickStr demoUser.password none⟩ ∧
     (∀ x ∈ store1.users, x.id ≠ 1 →
        x ∈ (UserView.patch 1 (.object [("username", JVal.str "user101")]) store1).2.users) ∧
     (∀ x ∈ (UserView.patch 1 (.object [("username", JVal.str "user101")]) store1).2.users,
        x.id ≠ 1 → x ∈ store1.users) ∧
     (UserView.patch 1 (.object [("username", JVal.str "user101")]) store1).2.advs =
        store1.advs) ∧
    UserView.patch 2 (.object [("username", JVal.str "user3")]) store2 =
      (serverError500, store2) ∧
    ((AdvView.patch 1 (.object [("header", JVal.str "Ford Focus 3")]) storeA).1 =
        ⟨200, .statusSuccess⟩ ∧
     getAdv (AdvView.patch 1 (.object [("header", JVal.str "Ford Focus 3")]) storeA).2 1 =
        some ⟨demoAdv.id, pickStr demoAdv.header (some "Ford Focus 3"),
              pickStr demoAdv.description none, demoAdv.registration_time, demoAdv.owner⟩ ∧
     (∀ x ∈ storeA.advs, x.id ≠ 1 →
        x ∈ (AdvView.patch 1 (.object [("header", JVal.str "Ford Focus 3")]) storeA).2.advs) ∧
     (∀ x ∈ (AdvView.patch 1 (.object [("header", JVal.str "Ford Focus 3")]) storeA).2.advs,
        x.id ≠ 1 → x ∈ storeA.advs) ∧
     (AdvView.patch 1 (.object [("header", JVal.str "Ford Focus 3")]) storeA).2.users =
        storeA.users) ∧
    AdvView.patch 1 (.object regPatch) storeA = (serverError500, storeA) :=
  ⟨c5_patch_applies_truthy_fields.1 1 store1 demoUser
     [("username", JVal.str "user101")] ⟨some "user101", none, none⟩ rfl rfl rfl,
   c5_patch_applies_truthy_fields.2.1 2 store2 demoUser2
     [("username", JVal.str "user3")] ⟨some "user3", none, none⟩ rfl rfl rfl,
   c5_patch_applies_truthy_fields.2.2.1 1 storeA demoAdv
     [("header", JVal.str "Ford Focus 3")] ⟨some "Ford Focus 3", none, none, none⟩
     rfl rfl rfl rfl,
   c5_patch_applies_truthy_fields.2.2.2 1 storeA demoAdv regPatch
     ⟨none, none, none, some "2022-01-01T00:00:00"⟩ rfl rfl rfl⟩

/-- C8 counterexample: user 1 exists in `storeA` but advertisement 1
references it, so the first DELETE hits the uncaught foreign-key
IntegrityError: the program answers 500, not the claimed 200, and the user
row is kept. -/
theorem c8_counterexample :
    getUser storeA 1 = some demoUser ∧
    UserView.delete 1 storeA = (serverError500, storeA) ∧
    serverError500.status = 500 ∧ (500 : Nat) ≠ 200 ∧
    getUser (UserView.delete 1 storeA).2 1 = some demoUser :=
  ⟨rfl, rfl, rfl, by decide, rfl⟩

/-- C8 as amended: the first DELETE of an existing entity answers 200
`{"status": "success"}` and removes it, and a second DELETE of the same id
answers 404 leaving the store exactly as after the first — provided, for a
user, that no advertisement references it; deleting a referenced user hits
the store's foreign-key IntegrityError, which the handler does not catch:
framework 500 and the store unchanged.  Advertisement deletes always follow
the 200-then-404 pattern. -/
theorem c8_delete_idempotent_in_effect :
    (∀ (s : Store) (uid : Nat) (u : UserRec),
       getUser s uid = some u →
       userReferenced s uid = false →
       ∃ s1, UserView.delete uid s = (⟨200, .statusSuccess⟩, s1) ∧
         getUser s1 uid = none ∧
         UserView.delete uid s1 = (⟨404, .errorMsg "User does not exist"⟩, s1)) ∧
    (∀ (s : Store) (uid : Nat) (u : UserRec),
       getUser s uid = some u →
       userReferenced s uid = true →
       UserView.delete uid s = (serverError500, s)) ∧
    (∀ (s : Store) (aid : Nat) (a : AdvRec),
       getAdv s aid = some a →
       ∃ s1, AdvView.delete aid s = (⟨200, .statusSuccess⟩, s1) ∧
         getAdv s1 aid = none ∧
         AdvView.delete aid s1 = (⟨404, .errorMsg "Advertisement does not exist"⟩, s1)) := by
  refine ⟨?_, ?_, ?_⟩
  · intro s uid u h href
    refine ⟨{ s with users := s.users.filter fun x => x.id != uid }, ?_, ?_, ?_⟩
    · simp [UserView.delete, h, href]
    · exact find?_filter_not (fun x : UserRec => x.id == uid) s.users
    · have hn : getUser { s with users := s.users.filter fun x => x.id != uid } uid = none :=
        find?_filter_not (fun x : UserRec => x.id == uid) s.users
      simp [UserView.delete, hn]
  · intro s uid u h href
    simp [UserView.delete, h, href]
  · intro s aid a h
    refine ⟨{ s with advs := s.advs.filter fun x => x.id != aid }, ?_, ?_, ?_⟩
    · simp [AdvView.delete, h]
    · exact find?_filter_not (fun x : AdvRec => x.id == aid) s.advs
    · have hn : getAdv { s with advs := s.advs.filter fun x => x.id != aid } aid = none :=
        find?_filter_not (fun x : AdvRec => x.id == aid) s.advs
      simp [AdvView.delete, hn]

/-- Concrete instances of the amended C8: user 1 of `store1` (referenced by
no advertisement) and advertisement 1 of `storeA` both delete with 200 then
404; user 1 of `storeA`, referenced by advertisement 1, answers 500 and
stays. -/
theorem c8_witness :
    (∃ s1, UserView.delete 1 store1 = (⟨200, .statusSuccess⟩, s1) ∧
       getUser s1 1 = none ∧
       UserView.delete 1 s1 = (⟨404, .errorMsg "User does not exist"⟩, s1)) ∧
    UserView.delete 1 storeA = (serverError500, storeA) ∧
    (∃ s1, AdvView.delete 1 storeA = (⟨200, .statusSuccess⟩, s1) ∧
       getAdv s1 1 = none ∧
       AdvView.delete 1 s1 = (⟨404, .errorMsg "Advertisement does not exist"⟩, s1)) :=
  ⟨c8_delete_idempotent_in_effect.1 store1 1 demoUser rfl rfl,
   c8_delete_idempotent_in_effect.2.1 storeA 1 demoUser rfl rfl,
   c8_delete_idempotent_in_effect.2.2 storeA 1 demoAdv rfl⟩

/-- Inversion of a user POST that answered 200: schema validation passed,
no uniqueness conflict fired, the returned id is the sequence value, and
the result store is the input store plus the new hashed row. -/
theorem userPost_ok_inversion (hashpw : String → String → String) (salt : String)
    (p : Payload) (s s' : Store) (n : Nat) (d : CreateUserData)
    (hsch : CreateUserSchema p = .ok d)
    (hpost : UserView.post hashpw salt (.object p) s = (⟨200, .idBody n⟩, s')) :
    userConflict s d.username d.email = false ∧ n = s.nextUserId ∧
    s' = { s with
            users := s.users ++ [⟨s.nextUserId, d.username, d.email, hashpw d.password salt⟩],
            nextUserId := s.nextUserId + 1 } := by
  by_cases hc : userConflict s d.username d.email = true
  · simp [UserView.post, hsch, hc, Prod.ext_iff, Resp.mk.injEq] at hpost
  · have hc' : userConflict s d.username d.email = false := by simpa using hc
    simp only [UserView.post, hsch, hc', Bool.false_eq_true, if_false, Prod.mk.injEq,
               Resp.mk.injEq, Body.idBody.injEq] at hpost
    obtain ⟨⟨-, hn⟩, hs⟩ := hpost
    exact ⟨hc', hn.symm, hs.symm⟩

/-- Inversion of an advertisement POST that answered 200: schema validation
passed, the owner referenced an existing user (no IntegrityError), the
returned id is the sequence value, and the result store holds the new row
with the server-assigned `registration_time`. -/
theorem advPost_ok_inversion (now : Nat) (p : Payload) (s s' : Store) (n : Nat)
    (d : CreateAdvData)
    (hsch : CreateAdvertisementSchema p = .ok d)
    (hpost : AdvView.post now (.object p) s = (⟨200, .idBody n⟩, s')) :
    s.users.any (fun u => (u.id : Int) == d.owner) = true ∧ n = s.nextAdvId ∧
    s' = { s with
            advs := s.advs ++ [⟨s.nextAdvId, d.header, d.description, now, d.owner⟩],
            nextAdvId := s.nextAdvId + 1 } := by
  by_cases hc : s.users.any (fun u => (u.id : Int) == d.owner) = true
  · refine ⟨hc, ?_⟩
    simp only [AdvView.post, hsch, hc, if_true, Prod.mk.injEq, Resp.mk.injEq,
               Body.idBody.injEq] at hpost
    obtain ⟨⟨-, hn⟩, hs⟩ := hpost
    exact ⟨hn.symm, hs.symm⟩
  · have hc' : s.users.any (fun u => (u.id : Int) == d.owner) = false := by simpa using hc
    simp [AdvView.post, hsch, hc', Prod.ext_iff, Resp.mk.injEq] at hpost

/-- Ids stored in a well-formed store never equal the next sequence value,
so a lookup of a freshly inserted row finds exactly that row. -/
theorem getUser_insert (s : Store) (hwf : Store.WF s) (u : UserRec)
    (hid : u.id = s.nextUserId) :
    ∀ rest : Store, rest.users = s.users ++ [u] → getUser rest u.id = some u := by
  intro rest hrest
  unfold getUser
  rw [hrest]
  refine find?_append_last _ _ _ ?_ (by simp)
  intro x hx
  have hlt := hwf.1 x hx
  simp only [beq_eq_false_iff_ne, ne_eq, hid]
  exact Nat.ne_of_lt hlt

/-- Advertisement analogue of `getUser_insert`. -/
theorem getAdv_insert (s : Store) (hwf : Store.WF s) (a : AdvRec)
    (hid : a.id = s.nextAdvId) :
    ∀ rest : Store, rest.advs = s.advs ++ [a] → getAdv rest a.id = some a := by
  intro rest hrest
  unfold getAdv
  rw [hrest]
  refine find?_append_last _ _ _ ?_ (by simp)
  intro x hx
  have hlt := hwf.2 x hx
  simp only [beq_eq_false_iff_ne, ne_eq, hid]
  exact Nat.ne_of_lt hlt

/-- C6: an advertisement's `registration_time` is assigned by the server at
creation (the `func.now()` default at INSERT) and cannot be changed by any
PATCH thereafter: a falsy `registration_time` field is skipped by the patch
loop, and a truthy one is a validated string the driver refuses at commit —
the request fails uncaught and rolls back — so after every PATCH request
the stored value still equals the creation-assigned one. -/
theorem c6_regtime_immutable :
    (∀ (now : Nat) (p : Payload) (s s' : Store) (n : Nat) (d : CreateAdvData),
       CreateAdvertisementSchema p = .ok d →
       AdvView.post now (.object p) s = (⟨200, .idBody n⟩, s') →
       ∃ a ∈ s'.advs, a.id = n ∧ a.registration_time = now) ∧
    (∀ (aid : Nat) (b : ReqBody) (s : Store) (a : AdvRec),
       getAdv s aid = some a →
       (getAdv (AdvView.patch aid b s).2 aid).map AdvRec.registration_time =
         some a.registration_time) := by
  constructor
  · intro now p s s' n d hsch hpost
    obtain ⟨-, hn, hsto⟩ := advPost_ok_inversion now p s s' n d hsch hpost
    refine ⟨⟨s.nextAdvId, d.header, d.description, now, d.owner⟩, ?_, hn.symm ▸ rfl, rfl⟩
    rw [hsto]
    exact List.mem_append_right _ (List.mem_singleton.2 rfl)
  · intro aid b s a ha
    cases b with
    | malformed => simp [AdvView.patch, ha]
    | nonObject v => simp [AdvView.patch, ha]
    | object p =>
      cases hsch : PatchAdvertisementSchema p with
      | error errs => simp [AdvView.patch, hsch, ha]
      | ok d =>
        by_cases htr : (truthy d.owner || truthy d.registration_time) = true
        · simp [AdvView.patch, hsch, ha, htr]
        · have htr2 : (truthy d.owner || truthy d.registration_time) = false := by
            simpa using htr
          have hrun : AdvView.patch aid (.object p) s =
              (⟨200, .statusSuccess⟩,
               { s with
                  advs := s.advs.map fun x => if x.id == aid then applyAdvPatch a d else x }) := by
            simp [AdvView.patch, hsch, ha, htr2]
          rw [hrun]
          have haid : (a.id == aid) = true := by simpa using List.find?_some ha
          have hPy : ((applyAdvPatch a d).id == aid) = true := by
            rw [applyAdvPatch_eq]; exact haid
          have ha2 : s.advs.find? (fun x => x.id == aid) = some a := ha
          have hsome : (s.advs.find? fun x => x.id == aid).isSome := by rw [ha2]; rfl
          have hfind := find?_replace (fun x : AdvRec => x.id == aid) (applyAdvPatch a d)
            hPy s.advs hsome
          show ((s.advs.map fun x => if x.id == aid then applyAdvPatch a d else x).find?
              (fun x => x.id == aid)).map AdvRec.registration_time = _
          rw [hfind, applyAdvPatch_eq]
          rfl

/-- Concrete instance of C6: the advertisement POSTed at clock 5 stores
`registration_time = 5`, and a PATCH trying to set the field leaves the
stored value unchanged. -/
theorem c6_witness :
    (∃ a ∈ storeA.advs, a.id = 1 ∧ a.registration_time = 5) ∧
    (getAdv (AdvView.patch 1 (.object regPatch) storeA).2 1).map AdvRec.registration_time =
      some demoAdv.registration_time :=
  ⟨c6_regtime_immutable.1 5 advPayload store1 storeA 1 ⟨"Opel Astra J", "car", 1⟩ rfl rfl,
   c6_regtime_immutable.2 1 (.object regPatch) storeA demoAdv rfl⟩

/-- C1: from a well-formed store, a POST of a valid create payload that
answers 200 `{"id": N}` followed by GET on N answers 200 with exactly the
submitted field values — the password is never echoed, and the
advertisement response adds the server-assigned `registration_time`. -/
theorem c1_post_then_get_roundtrip :
    (∀ (hashpw : String → String → String) (salt : String) (p : Payload)
       (s s' : Store) (n : Nat) (un em pw : String),
       Store.WF s →
       getField p "username" = some (.str un) →
       getField p "email" = some (.str em) →
       getField p "password" = some (.str pw) →
       UserView.post hashpw salt (.object p) s = (⟨200, .idBody n⟩, s') →
       UserView.get n s' = (⟨200, .userBody un em⟩, s') ∧
       "password" ∉ Body.keys (.userBody un em)) ∧
    (∀ (now : Nat) (p : Payload) (s s' : Store) (n : Nat) (hd ds : String) (ow : Int),
       Store.WF s →
       getField p "header" = some (.str hd) →
       getField p "description" = some (.str ds) →
       getField p "owner" = some (.num ow) →
       AdvView.post now (.object p) s = (⟨200, .idBody n⟩, s') →
       AdvView.get n s' = (⟨200, .advBody hd (isoformat now) ds ow⟩, s')) := by
  constructor
  · intro hashpw salt p s s' n un em pw hwf h1 h2 h3 hpost
    have hsch := createUserSchema_ok p un em pw h1 h2 h3
    obtain ⟨hconf, hn, hs'⟩ := userPost_ok_inversion hashpw salt p s s' n ⟨un, em, pw⟩ hsch hpost
    have hget : getUser s' n = some ⟨s.nextUserId, un, em, hashpw pw salt⟩ := by
      subst hn
      exact getUser_insert s hwf _ rfl s' (by rw [hs'])
    refine ⟨?_, by simp [Body.keys]⟩
    simp [UserView.get, hget]
  · intro now p s s' n hd ds ow hwf h1 h2 h3 hpost
    have hsch := createAdvSchema_ok p hd ds ow h1 h2 h3
    obtain ⟨hfk, hn, hs'⟩ := advPost_ok_inversion now p s s' n ⟨hd, ds, ow⟩ hsch hpost
    have hget : getAdv s' n = some ⟨s.nextAdvId, hd, ds, now, ow⟩ := by
      subst hn
      exact getAdv_insert s hwf _ rfl s' (by rw [hs'])
    simp [AdvView.get, hget]

/-- Concrete instance of C1: the client script's user payload round-trips
through POST and GET, and the advertisement payload round-trips with its
server-assigned registration time. -/
theorem c1_witness :
    (UserView.get 1 store1 = (⟨200, .userBody "user3" "user3@mail.com"⟩, store1) ∧
     "password" ∉ Body.keys (.userBody "user3" "user3@mail.com")) ∧
    AdvView.get 1 storeA = (⟨200, .advBody "Opel Astra J" (isoformat 5) "car" 1⟩, storeA) :=
  ⟨c1_post_then_get_roundtrip.1 demoHash "salt" userPayload store0 store1 1
     "user3" "user3@mail.com" "12345" (by decide) rfl rfl rfl rfl,
   c1_post_then_get_roundtrip.2 5 advPayload store1 storeA 1
     "Opel Astra J" "car" 1 (by decide) rfl rfl rfl rfl⟩

/-- C4: after a first user is created, a second POST whose username or email
collides hits the store's uniqueness violation, which the handler converts
to 400 `{"error": "user already exists"}` (the raw IntegrityError is not
propagated); the store is unchanged and the first user is still retrievable
with its original field values. -/
theorem c4_duplicate_user_400 :
    ∀ (hp1 hp2 : String → String → String) (salt1 salt2 : String) (s s1 : Store)
      (p1 p2 : Payload) (d1 d2 : CreateUserData) (n : Nat),
      Store.WF s →
      CreateUserSchema p1 = .ok d1 →
      CreateUserSchema p2 = .ok d2 →
      (d2.username = d1.username ∨ d2.email = d1.email) →
      UserView.post hp1 salt1 (.object p1) s = (⟨200, .idBody n⟩, s1) →
      UserView.post hp2 salt2 (.object p2) s1 = (⟨400, .errorMsg "user already exists"⟩, s1) ∧
      UserView.get n s1 = (⟨200, .userBody d1.username d1.email⟩, s1) := by
  intro hp1 hp2 salt1 salt2 s s1 p1 p2 d1 d2 n hwf hsc1 hsc2 hdup hpost
  obtain ⟨hconf, hn, hsto⟩ := userPost_ok_inversion hp1 salt1 p1 s s1 n d1 hsc1 hpost
  have hconf2 : userConflict s1 d2.username d2.email = true := by
    rw [hsto]
    unfold userConflict
    rcases hdup with h | h <;> simp [h]
  constructor
  · simp [UserView.post, hsc2, hconf2]
  · have hget : getUser s1 n = some ⟨s.nextUserId, d1.username, d1.email, hp1 d1.password salt1⟩ := by
      subst hn
      exact getUser_insert s hwf _ rfl s1 (by rw [hsto])
    simp [UserView.get, hget]

/-- Concrete instance of C4: creating "user3" and then a second user with
the same username yields 400 "user already exists" and leaves the first
user retrievable unchanged. -/
theorem c4_witness :
    UserView.post demoHash "salt2"
        (.object [("username", JVal.str "user3"), ("email", JVal.str "other@mail.com"),
                  ("password", JVal.str "zzz")]) store1 =
      (⟨400, .errorMsg "user already exists"⟩, store1) ∧
    UserView.get 1 store1 = (⟨200, .userBody "user3" "user3@mail.com"⟩, store1) :=
  c4_duplicate_user_400 demoHash demoHash "salt" "salt2" store0 store1 userPayload
    [("username", JVal.str "user3"), ("email", JVal.str "other@mail.com"),
     ("password", JVal.str "zzz")]
    ⟨"user3", "user3@mail.com", "12345"⟩ ⟨"user3", "other@mail.com", "zzz"⟩ 1
    (by decide) rfl rfl (Or.inl rfl) rfl

/-- Every response-body shape the server builds lacks a top-level
"password" key. -/
theorem body_no_password_key : ∀ b : Body, "password" ∉ b.keys := by
  intro b
  cases b <;> simp [Body.keys]

/-- C9: a user created via POST is stored with the salted one-way hash of
the submitted password (`bcrypt.hashpw(password, gensalt())`), not the
plaintext; and no response of any operation carries a password field. -/
theorem c9_password_hashed_and_never_echoed :
    (∀ (hashpw : String → String → String) (salt : String) (p : Payload)
       (s s' : Store) (d : CreateUserData) (n : Nat),
       CreateUserSchema p = .ok d →
       UserView.post hashpw salt (.object p) s = (⟨200, .idBody n⟩, s') →
       ∃ u ∈ s'.users, u.id = n ∧ u.password = hashpw d.password salt ∧
         (hashpw d.password salt ≠ d.password → u.password ≠ d.password)) ∧
    (∀ (i : Nat) (s : Store), "password" ∉ (UserView.get i s).1.body.keys) ∧
    (∀ (hashpw : String → String → String) (salt : String) (b : ReqBody) (s : Store),
       "password" ∉ (UserView.post hashpw salt b s).1.body.keys) ∧
    (∀ (i : Nat) (b : ReqBody) (s : Store), "password" ∉ (UserView.patch i b s).1.body.keys) ∧
    (∀ (i : Nat) (s : Store), "password" ∉ (UserView.delete i s).1.body.keys) ∧
    (∀ (i : Nat) (s : Store), "password" ∉ (AdvView.get i s).1.body.keys) ∧
    (∀ (now : Nat) (b : ReqBody) (s : Store), "password" ∉ (AdvView.post now b s).1.body.keys) ∧
    (∀ (i : Nat) (b : ReqBody) (s : Store), "password" ∉ (AdvView.patch i b s).1.body.keys) ∧
    (∀ (i : Nat) (s : Store), "password" ∉ (AdvView.delete i s).1.body.keys) := by
  refine ⟨?_, fun _ _ => body_no_password_key _, fun _ _ _ _ => body_no_password_key _,
          fun _ _ _ => body_no_password_key _, fun _ _ => body_no_password_key _,
          fun _ _ => body_no_password_key _, fun _ _ _ => body_no_password_key _,
          fun _ _ _ => body_no_password_key _, fun _ _ => body_no_password_key _⟩
  intro hashpw salt p s s' d n hsch hpost
  obtain ⟨hconf, hn, hsto⟩ := userPost_ok_inversion hashpw salt p s s' n d hsch hpost
  refine ⟨⟨s.nextUserId, d.username, d.email, hashpw d.password salt⟩, ?_, hn.symm ▸ rfl, rfl, ?_⟩
  · rw [hsto]
    exact List.mem_append_right _ (List.mem_singleton.2 rfl)
  · intro hne
    exact hne

/-- Concrete instance of C9: the stored row for the client script's user
carries the salted hash, and — with the demo hash, which is visibly not the
identity — not the plaintext password. -/
theorem c9_witness :
    ∃ u ∈ store1.users, u.id = 1 ∧ u.password = demoHash "12345" "salt" ∧
      (demoHash "12345" "salt" ≠ "12345" → u.password ≠ "12345") :=
  c9_password_hashed_and_never_echoed.1 demoHash "salt" userPayload store0 store1
    ⟨"user3", "user3@mail.com", "12345"⟩ 1 rfl rfl

/-- Required-field validation depends only on the field's lookup. -/
theorem requiredStr_ext (p q : Payload) (name : String)
    (h : getField p name = getField q name) : requiredStr p name = requiredStr q name := by
  unfold requiredStr
  rw [h]

/-- Integer analogue of `requiredStr_ext`. -/
theorem requiredInt_ext (p q : Payload) (name : String)
    (h : getField p name = getField q name) : requiredInt p name = requiredInt q name := by
  unfold requiredInt
  rw [h]

/-- Extra fields under unknown keys do not change user create validation
(pydantic v1 ignores undeclared fields). -/
theorem createUserSchema_ignores_extra (p junk : Payload)
    (h : ∀ kv ∈ junk, kv.1 ≠ "username" ∧ kv.1 ≠ "email" ∧ kv.1 ≠ "password") :
    CreateUserSchema (p ++ junk) = CreateUserSchema p := by
  unfold CreateUserSchema
  rw [requiredStr_ext (p ++ junk) p "username"
        (getField_append_junk p junk _ fun kv hk => (h kv hk).1),
      requiredStr_ext (p ++ junk) p "email"
        (getField_append_junk p junk _ fun kv hk => (h kv hk).2.1),
      requiredStr_ext (p ++ junk) p "password"
        (getField_append_junk p junk _ fun kv hk => (h kv hk).2.2)]

/-- Extra fields under unknown keys do not change advertisement create
validation. -/
theorem createAdvSchema_ignores_extra (p junk : Payload)
    (h : ∀ kv ∈ junk, kv.1 ≠ "header" ∧ kv.1 ≠ "description" ∧ kv.1 ≠ "owner") :
    CreateAdvertisementSchema (p ++ junk) = CreateAdvertisementSchema p := by
  unfold CreateAdvertisementSchema
  rw [requiredStr_ext (p ++ junk) p "header"
        (getField_append_junk p junk _ fun kv hk => (h kv hk).1),
      requiredStr_ext (p ++ junk) p "description"
        (getField_append_junk p junk _ fun kv hk => (h kv hk).2.1),
      requiredInt_ext (p ++ junk) p "owner"
        (getField_append_junk p junk _ fun kv hk => (h kv hk).2.2)]

/-- A user POST is insensitive to extra unknown fields in its payload. -/
theorem userPost_ignores_extra (hashpw : String → String → String) (salt : String)
    (s : Store) (p junk : Payload)
    (h : ∀ kv ∈ junk, kv.1 ≠ "username" ∧ kv.1 ≠ "email" ∧ kv.1 ≠ "password") :
    UserView.post hashpw salt (.object (p ++ junk)) s = UserView.post hashpw salt (.object p) s := by
  simp only [UserView.post, createUserSchema_ignores_extra p junk h]

/-- An advertisement POST is insensitive to extra unknown fields. -/
theorem advPost_ignores_extra (now : Nat) (s : Store) (p junk : Payload)
    (h : ∀ kv ∈ junk, kv.1 ≠ "header" ∧ kv.1 ≠ "description" ∧ kv.1 ≠ "owner") :
    AdvView.post now (.object (p ++ junk)) s = AdvView.post now (.object p) s := by
  simp only [AdvView.post, createAdvSchema_ignores_extra p junk h]

/-- C10: a create payload carrying all required fields with correct types
plus arbitrary extra unknown fields behaves exactly as without the extras:
the extras are silently discarded, POST answers 200 `{"id": <new id>}`, and
the inserted row holds only the schema-declared fields. -/
theorem c10_extra_fields_discarded :
    (∀ (hashpw : String → String → String) (salt : String) (s : Store) (p junk : Payload),
       (∀ kv ∈ junk, kv.1 ≠ "username" ∧ kv.1 ≠ "email" ∧ kv.1 ≠ "password") →
       UserView.post hashpw salt (.object (p ++ junk)) s =
         UserView.post hashpw salt (.object p) s) ∧
    (∀ (hashpw : String → String → String) (salt : String) (s : Store) (p junk : Payload)
       (un em pw : String),
       (∀ kv ∈ junk, kv.1 ≠ "username" ∧ kv.1 ≠ "email" ∧ kv.1 ≠ "password") →
       getField p "username" = some (.str un) →
       getField p "email" = some (.str em) →
       getField p "password" = some (.str pw) →
       userConflict s un em = false →
       UserView.post hashpw salt (.object (p ++ junk)) s =
         (⟨200, .idBody s.nextUserId⟩,
          { s with
             users := s.users ++ [⟨s.nextUserId, un, em, hashpw pw salt⟩],
             nextUserId := s.nextUserId + 1 })) ∧
    (∀ (now : Nat) (s : Store) (p junk : Payload),
       (∀ kv ∈ junk, kv.1 ≠ "header" ∧ kv.1 ≠ "description" ∧ kv.1 ≠ "owner") →
       AdvView.post now (.object (p ++ junk)) s = AdvView.post now (.object p) s) ∧
    (∀ (now : Nat) (s : Store) (p junk : Payload) (hd ds : String) (ow : Int),
       (∀ kv ∈ junk, kv.1 ≠ "header" ∧ kv.1 ≠ "description" ∧ kv.1 ≠ "owner") →
       getField p "header" = some (.str hd) →
       getField p "description" = some (.str ds) →
       getField p "owner" = some (.num ow) →
       s.users.any (fun u => (u.id : Int) == ow) = true →
       AdvView.post now (.object (p ++ junk)) s =
         (⟨200, .idBody s.nextAdvId⟩,
          { s with
             advs := s.advs ++ [⟨s.nextAdvId, hd, ds, now, ow⟩],
             nextAdvId := s.nextAdvId + 1 })) := by
  refine ⟨userPost_ignores_extra, ?_, advPost_ignores_extra, ?_⟩
  · intro hashpw salt s p junk un em pw h h1 h2 h3 hconf
    rw [userPost_ignores_extra hashpw salt s p junk h]
    simp [UserView.post, createUserSchema_ok p un em pw h1 h2 h3, hconf]
  · intro now s p junk hd ds ow h h1 h2 h3 hfk
    rw [advPost_ignores_extra now s p junk h]
    simp [AdvView.post, createAdvSchema_ok p hd ds ow h1 h2 h3, hfk]

/-- Concrete instance of C10: the client script's user payload with an
extra `"extra": "x"` field still creates user 1, storing only the declared
fields. -/
theorem c10_witness :
    UserView.post demoHash "salt" (.object (userPayload ++ [("extra", JVal.str "x")])) store0 =
      (⟨200, .idBody store0.nextUserId⟩,
       { store0 with
          users := store0.users ++
            [⟨store0.nextUserId, "user3", "user3@mail.com", demoHash "12345" "salt"⟩],
          nextUserId := store0.nextUserId + 1 }) :=
  c10_extra_fields_discarded.2.1 demoHash "salt" store0 userPayload
    [("extra", JVal.str "x")] "user3" "user3@mail.com" "12345"
    (by decide) rfl rfl rfl rfl
